import Mathlib

/-!
Shallow embedding of the market-prediction dashboard frontend.

Each definition below translates one routine or data shape of the source
repository into Lean. React state hooks become explicit state records; an
asynchronous routine becomes a pair of pure functions: a start function
(the synchronous prologue that runs before the first await) and a finish
function mapping the outcome of the network interaction to the state
observed after the routine completes, including its finally block.
Network calls themselves are inputs: an Except value or an oracle
function, never re-implemented.

Numeric JavaScript values are modelled as Int. No claim reads or computes
with any of these numbers, so the carrier type is irrelevant; only
decidable equality is used.

Fields named open in the source are renamed openPrice because open is a
Lean keyword.
-/

namespace MarketPred

/-- JavaScript String.prototype.trim modelled structurally on the list of
characters, so that it evaluates by kernel reduction. -/
def jsTrim (s : String) : String :=
  ⟨((s.data.dropWhile Char.isWhitespace).reverse.dropWhile Char.isWhitespace).reverse⟩

/-- JavaScript String.prototype.toUpperCase modelled structurally. -/
def jsToUpper (s : String) : String :=
  ⟨s.data.map Char.toUpper⟩

/-- JavaScript logical-or defaulting applied to an optional string, as in
the idiom value.message logical-or fallback: an absent OR empty string
falls back to the default. -/
def jsOr (s : Option String) (d : String) : String :=
  match s with
  | some m => if m.isEmpty then d else m
  | none => d

/-- JavaScript String.prototype.replace with a string pattern: replaces
only the first occurrence. -/
def replaceFirst (s pat repl : String) : String :=
  match s.splitOn pat with
  | [] => s
  | [whole] => whole
  | first :: rest => first ++ repl ++ String.intercalate pat rest

/-- Parsed JSON values, as produced by response.json in the proxy. -/
inductive Json where
  | null
  | bool (b : Bool)
  | num (n : Int)
  | str (s : String)
  | arr (elems : List Json)
  | obj (members : List (String × Json))

/-- Backend response envelope, src/src/types/market.ts ApiResponse and
the untyped envelopes read in part_001/part_002: success true always
carries data; success false carries an optional error message. -/
inductive ApiResult (α : Type) where
  | success (data : α)
  | failure (message : Option String)
deriving DecidableEq

/-- Outcome of an awaited fetch-plus-json-parse: either the parsed
envelope, or a rejection (network failure or unparsable body). -/
inductive RequestEnd (α : Type) where
  | completed (r : ApiResult α)
  | networkError
deriving DecidableEq

/-- What the awaiting code observes for a request that takes duration
milliseconds when an abort timer may be armed: if a timer with period t
is armed and the request is still in flight past t, the request rejects
with AbortError; otherwise the underlying outcome is delivered. -/
inductive Resolved (α : Type) where
  | result (r : RequestEnd α)
  | aborted
deriving DecidableEq

/-- Resolution of a request under an optional abort-timer period. -/
def resolveRequest {α : Type} (timeout : Option Nat) (duration : Nat)
    (r : RequestEnd α) : Resolved α :=
  match timeout with
  | some t => if t < duration then .aborted else .result r
  | none => .result r

/- ----------------------------------------------------------------
Data model, src/src/types/market.ts
---------------------------------------------------------------- -/

/-- MarketOutcome record. The metadata field is an opaque untyped record
in the source and is read by no code in this repository; it is carried as
an opaque serialized string. -/
structure MarketOutcome where
  id : String
  label : String
  price : Int
  priceChange24h : Option Int := none
  metadata : Option String := none
deriving DecidableEq

/-- Market record. -/
structure Market where
  id : String
  title : String
  outcomes : List MarketOutcome
  volume24h : Int
  liquidity : Int
  url : String
  description : Option String := none
  resolutionDate : Option String := none
  volume : Option Int := none
  openInterest : Option Int := none
  image : Option String := none
  category : Option String := none
  tags : Option (List String) := none
deriving DecidableEq

/-- PriceCandle record; the source field open is renamed openPrice. -/
structure PriceCandle where
  timestamp : Int
  openPrice : Int
  high : Int
  low : Int
  close : Int
  volume : Int
deriving DecidableEq

/-- OrderLevel record. -/
structure OrderLevel where
  price : Int
  size : Int
deriving DecidableEq

/-- OrderBook record. -/
structure OrderBook where
  bids : List OrderLevel
  asks : List OrderLevel
  timestamp : Option Int := none
deriving DecidableEq

/-- Exchange type, src/src/services/api.ts. -/
inductive Exchange where
  | polymarket
  | kalshi
deriving DecidableEq

/- ----------------------------------------------------------------
App component, src/src/App.tsx
---------------------------------------------------------------- -/

/-- View state of the App component: the five useState hooks. -/
structure AppState where
  exchange : Exchange
  markets : List Market
  selectedMarket : Option Market
  loading : Bool
  error : Option String
deriving DecidableEq

/-- State after loadMarkets (App.tsx lines 17 to 30) completes, given the
outcome of fetchMarkets. Success stores the data, clears the selection and
keeps the error cleared by the prologue; the catch branch records the
message and empties the list without touching the selection; the finally
branch clears loading last. -/
def loadMarkets (r : Except String (List Market)) (s : AppState) : AppState :=
  match r with
  | .ok data => { s with markets := data, selectedMarket := none, error := none, loading := false }
  | .error msg => { s with error := some msg, markets := [], loading := false }

/-- State after the non-empty-query branch of handleSearch (App.tsx lines
38 to 49) completes, given the outcome of searchMarkets. -/
def searchMarketsComplete (r : Except String (List Market)) (s : AppState) : AppState :=
  match r with
  | .ok data => { s with markets := data, selectedMarket := none, error := none, loading := false }
  | .error msg => { s with error := some msg, markets := [], loading := false }

/-- Network calls the App component can issue from handleSearch. -/
inductive AppCall where
  | fetchMarketsCall (ex : Exchange) (limit : Nat)
  | searchMarketsCall (ex : Exchange) (query : String) (limit : Nat)
deriving DecidableEq

/-- Requests issued by handleSearch (App.tsx lines 32 to 41): a blank or
whitespace-only query re-runs loadMarkets, which calls fetchMarkets with
limit 20; otherwise searchMarkets is called with the query and limit 20. -/
def appHandleSearchCalls (ex : Exchange) (query : String) : List AppCall :=
  if (jsTrim query).isEmpty then [.fetchMarketsCall ex 20]
  else [.searchMarketsCall ex query 20]

/- ----------------------------------------------------------------
PriceChart component, src/src/components/PriceChart.tsx
---------------------------------------------------------------- -/

/-- View state of the PriceChart component. -/
structure PriceChartState where
  candles : List PriceCandle
  loading : Bool
  error : Option String
  selectedOutcome : Option String
deriving DecidableEq

/-- Value assigned to selectedOutcome by the effect on market.id change
(PriceChart.tsx lines 26 to 33): the first outcome id when the list is
non-empty, null otherwise. -/
def priceChartResetSelectedOutcome (market : Market) : Option String :=
  match market.outcomes with
  | o :: _ => some o.id
  | [] => none

/-- State after loadCandles (PriceChart.tsx lines 38 to 53) completes,
given the outcome of fetchOHLCV. -/
def loadCandles (r : Except String (List PriceCandle)) (s : PriceChartState) : PriceChartState :=
  match r with
  | .ok data => { s with candles := data, error := none, loading := false }
  | .error msg => { s with error := some msg, candles := [], loading := false }

/-- Arguments of a fetchOHLCV call issued by the chart effect. -/
structure CandleRequest where
  exchange : Exchange
  outcomeId : String
  resolution : String
  limit : Nat
deriving DecidableEq

/-- Request issued by the candle-loading effect (PriceChart.tsx lines 35
to 56): a falsy selection (null or empty id) suppresses the fetch, else
fetchOHLCV is called with resolution 1h and limit 48. -/
def chartCandleRequest (ex : Exchange) (sel : Option String) : Option CandleRequest :=
  match sel with
  | none => none
  | some oid =>
      if oid.isEmpty then none
      else some { exchange := ex, outcomeId := oid, resolution := "1h", limit := 48 }

/- ----------------------------------------------------------------
OrderBookView component, second file in src/src/components/MarketCard.tsx
---------------------------------------------------------------- -/

/-- View state of the OrderBookView component. -/
structure OrderBookViewState where
  orderBook : Option OrderBook
  loading : Bool
  error : Option String
  selectedOutcome : Option String
deriving DecidableEq

/-- Value assigned to selectedOutcome by the effect on market.id change
(OrderBookView lines 86 to 93), identical in shape to the chart reset. -/
def orderBookResetSelectedOutcome (market : Market) : Option String :=
  match market.outcomes with
  | o :: _ => some o.id
  | [] => none

/-- State after loadOrderBook (OrderBookView lines 98 to 110) completes,
given the outcome of fetchOrderBook. -/
def loadOrderBook (r : Except String OrderBook) (s : OrderBookViewState) : OrderBookViewState :=
  match r with
  | .ok data => { s with orderBook := some data, error := none, loading := false }
  | .error msg => { s with error := some msg, orderBook := none, loading := false }

/-- Arguments of a fetchOrderBook call issued by the order-book effect. -/
structure OrderBookRequest where
  exchange : Exchange
  outcomeId : String
deriving DecidableEq

/-- Request issued by the order-book loading effect (OrderBookView lines
95 to 113): a falsy selection suppresses the fetch. -/
def orderBookFetchRequest (ex : Exchange) (sel : Option String) : Option OrderBookRequest :=
  match sel with
  | none => none
  | some oid =>
      if oid.isEmpty then none
      else some { exchange := ex, outcomeId := oid }

/- ----------------------------------------------------------------
Proxy endpoints, src/api/proxy.js and src/unnamed/part_000
---------------------------------------------------------------- -/

/-- Incoming request seen by a proxy handler. -/
structure ProxyRequest where
  method : String
  url : String
  body : Json

/-- Options passed to the upstream fetch. The body is carried as its JSON
value; the source serializes it with JSON.stringify. -/
structure FetchOptions where
  method : String
  contentType : String
  body : Option Json

/-- Upstream status and parsed JSON body, the result of awaiting fetch
and then response.json. -/
structure UpstreamReply where
  status : Nat
  body : Json

/-- Response a proxy handler sends back to its client. -/
inductive HandlerResult where
  | preflight
  | response (status : Nat) (body : Json)

/-- Fixed upstream origin used by both proxy handlers. -/
def BACKEND_URL : String :=
  "http://ec2-13-126-81-152.ap-south-1.compute.amazonaws.com:3847"

/-- Local path rewrite: strip the first /api/proxy occurrence, defaulting
to the root path when the remainder is empty. -/
def proxyPath (url : String) : String :=
  let p := replaceFirst url "/api/proxy" ""
  if p.isEmpty then "/" else p

/-- Upstream target URL for an incoming request URL. -/
def targetUrl (url : String) : String :=
  BACKEND_URL ++ proxyPath url

/-- Failure envelope sent on the proxy error path: success false plus an
error object holding the message. -/
def errorEnvelope (message : String) : Json :=
  Json.obj [("success", Json.bool false), ("error", Json.obj [("message", Json.str message)])]

/-- Fetch options built by the CORS-enabled handler, src/api/proxy.js
lines 22 to 31: a body is attached unless the method is GET or HEAD. -/
def corsFetchOptions (req : ProxyRequest) : FetchOptions :=
  { method := req.method,
    contentType := "application/json",
    body := if req.method ≠ "GET" ∧ req.method ≠ "HEAD" then some req.body else none }

/-- Fetch options built by the basic handler, src/unnamed/part_000 lines
9 to 15: a body is attached unless the method is GET. -/
def basicFetchOptions (req : ProxyRequest) : FetchOptions :=
  { method := req.method,
    contentType := "application/json",
    body := if req.method ≠ "GET" then some req.body else none }

/-- CORS-enabled proxy handler, src/api/proxy.js. OPTIONS is answered
directly; otherwise the upstream fetch-and-parse outcome, supplied by the
net oracle, is relayed: its status and parsed body on success, and status
500 with the failure envelope when the awaited chain throws. -/
def handlerCors (req : ProxyRequest)
    (net : String → FetchOptions → Except String UpstreamReply) : HandlerResult :=
  if req.method = "OPTIONS" then .preflight
  else
    match net (targetUrl req.url) (corsFetchOptions req) with
    | .ok r => .response r.status r.body
    | .error e => .response 500 (errorEnvelope e)

/-- Basic proxy handler, src/unnamed/part_000: same relay without the
preflight branch. -/
def handlerBasic (req : ProxyRequest)
    (net : String → FetchOptions → Except String UpstreamReply) : HandlerResult :=
  match net (targetUrl req.url) (basicFetchOptions req) with
  | .ok r => .response r.status r.body
  | .error e => .response 500 (errorEnvelope e)

/- ----------------------------------------------------------------
StockDashboard component, src/unnamed/part_001
---------------------------------------------------------------- -/

/-- StockQuote record; the source field open is renamed openPrice. -/
structure StockQuote where
  symbol : String
  companyName : String
  lastPrice : Int
  change : Int
  pChange : Int
  openPrice : Int
  dayHigh : Int
  dayLow : Int
  previousClose : Int
  totalTradedVolume : Int
  yearHigh : Int
  yearLow : Int
  lastUpdateTime : String
  industry : Option String := none
deriving DecidableEq

/-- IndexData record. -/
structure IndexData where
  indexName : String
  current : Int
  change : Int
  pChange : Int
  high : Int
  low : Int
  lastUpdateTime : String
deriving DecidableEq

/-- MarketStatus record. -/
structure MarketStatus where
  market : String
  marketStatus : String
  marketStatusMessage : String
deriving DecidableEq

/-- Payload stored in the nifty and bankNifty states: an index record
plus its constituent stocks. -/
structure IndexSnapshot where
  indexData : IndexData
  stocks : List StockQuote
deriving DecidableEq

/-- Active section of the stock dashboard. -/
inductive StockSection where
  | overview
  | search
  | ai
deriving DecidableEq

/-- Chat message record with a role and a content string. -/
structure ChatMsg where
  role : String
  content : String
deriving DecidableEq

/-- Payload of a successful ai-chat response: the response string read at
data.data.response. -/
structure ChatResponsePayload where
  response : String
deriving DecidableEq

/-- View state of the StockDashboard component: its useState hooks. The
aiAnalysis payload is untyped in the source and carried as Json. -/
structure StockState where
  activeSection : StockSection
  loading : Bool
  error : Option String
  nifty : Option IndexSnapshot
  bankNifty : Option IndexSnapshot
  marketStatus : List MarketStatus
  gainers : List StockQuote
  losers : List StockQuote
  searchQuery : String
  searchResults : List StockQuote
  searchLoading : Bool
  selectedStock : Option StockQuote
  aiAnalysis : Option Json
  aiLoading : Bool
  aiError : Option String
  chatMessages : List ChatMsg
  chatInput : String
  chatLoading : Bool

/-- Initial StockDashboard state: the useState initial values. -/
def stockInit : StockState :=
  { activeSection := .overview, loading := true, error := none,
    nifty := none, bankNifty := none, marketStatus := [],
    gainers := [], losers := [],
    searchQuery := "", searchResults := [], searchLoading := false,
    selectedStock := none, aiAnalysis := none, aiLoading := false,
    aiError := none, chatMessages := [], chatInput := "", chatLoading := false }

/-- Synchronous prologue of loadMarketData, part_001 lines 89 to 90. -/
def loadMarketDataStart (s : StockState) : StockState :=
  { s with loading := true, error := none }

/-- Outcome of the Promise.all of the five fetch-and-parse chains in
loadMarketData: either all five envelopes, or a single rejection that
reaches the catch branch. -/
inductive MarketDataFetch where
  | completed (nifty bankNifty : ApiResult IndexSnapshot)
      (status : ApiResult (List MarketStatus))
      (gainers losers : ApiResult (List StockQuote))
  | networkError

/-- Conditional setter used for each envelope in loadMarketData: the
state is updated only when the envelope reports success. -/
def applyIfSuccess {α : Type} (r : ApiResult α)
    (set : α → StockState → StockState) (s : StockState) : StockState :=
  match r with
  | .success d => set d s
  | .failure _ => s

/-- State after loadMarketData (part_001 lines 88 to 116) completes. Each
successful envelope populates its field; envelopes reporting failure are
ignored silently; only a rejection of the awaited chain sets the error
string; the finally branch clears loading last. -/
def loadMarketDataFinish (r : MarketDataFetch) (s : StockState) : StockState :=
  match r with
  | .networkError => { s with error := some "Failed to load market data", loading := false }
  | .completed n b st g l =>
      let s := applyIfSuccess n (fun d s => { s with nifty := some d }) s
      let s := applyIfSuccess b (fun d s => { s with bankNifty := some d }) s
      let s := applyIfSuccess st (fun d s => { s with marketStatus := d }) s
      let s := applyIfSuccess g (fun d s => { s with gainers := d }) s
      let s := applyIfSuccess l (fun d s => { s with losers := d }) s
      { s with loading := false }

/-- Network calls the StockDashboard search handler can issue. The
loadMarketDataCall constructor stands for invoking the default listing
routine loadMarketData. -/
inductive StockCall where
  | loadMarketDataCall
  | quoteCall (symbol : String)
deriving DecidableEq

/-- Requests issued by handleSearch in StockDashboard, part_001 lines 118
to 137: a blank or whitespace-only query returns without issuing any
request; otherwise the quote endpoint is called with the upper-cased
query. -/
def stockHandleSearchCalls (query : String) : List StockCall :=
  if (jsTrim query).isEmpty then []
  else [.quoteCall (jsToUpper query)]

/-- Abort-timer period armed by analyzeStock, part_001 lines 147 to 148:
45000 milliseconds. -/
def analyzeStockTimeoutMs : Option Nat := some 45000

/-- Error message surfaced on the AbortError branch of analyzeStock. -/
def analysisTimeoutMessage : String := "Analysis timed out. Please try again."

/-- Error message surfaced on the generic rejection branch of
analyzeStock. -/
def analysisConnectionFailureMessage : String :=
  "Failed to analyze stock. Please check your connection and try again."

/-- Synchronous prologue of analyzeStock, part_001 lines 140 to 144. -/
def analyzeStockStart (stock : StockQuote) (s : StockState) : StockState :=
  { s with selectedStock := some stock, activeSection := .ai,
           aiLoading := true, aiError := none, aiAnalysis := none }

/-- State after analyzeStock (part_001 lines 139 to 177) completes for a
request taking duration milliseconds. An abort past the 45 second timer
rejects with AbortError and surfaces the timeout message; a success
envelope stores the analysis; a failure envelope surfaces its message or
a default; any other rejection surfaces the connection-failure message. -/
def analyzeStockFinish (duration : Nat) (r : RequestEnd Json) (s : StockState) : StockState :=
  match resolveRequest analyzeStockTimeoutMs duration r with
  | .aborted =>
      { s with aiError := some analysisTimeoutMessage, aiLoading := false }
  | .result (.completed (.success d)) =>
      { s with aiAnalysis := some d, aiLoading := false }
  | .result (.completed (.failure msg)) =>
      { s with aiError := some (jsOr msg "Failed to analyze stock. Please try again."),
               aiLoading := false }
  | .result .networkError =>
      { s with aiError := some analysisConnectionFailureMessage, aiLoading := false }

/-- Synchronous prologue of sendChatMessage, part_001 lines 179 to 185:
guard on a blank input, append the user message, clear the input and set
the chat loading flag. -/
def sendChatMessageStart (s : StockState) : StockState :=
  if (jsTrim s.chatInput).isEmpty then s
  else
    { s with chatMessages := s.chatMessages ++ [{ role := "user", content := s.chatInput }],
             chatInput := "",
             chatLoading := true }

/-- State after the awaited part of sendChatMessage (part_001 lines 187
to 205) completes: a success envelope appends the assistant response; a
failure envelope appends nothing; a rejection appends a failure notice;
the finally branch clears the chat loading flag last. -/
def sendChatMessageFinish (r : RequestEnd ChatResponsePayload) (s : StockState) : StockState :=
  match r with
  | .completed (.success d) =>
      { s with chatMessages := s.chatMessages ++ [{ role := "assistant", content := d.response }],
               chatLoading := false }
  | .completed (.failure _) => { s with chatLoading := false }
  | .networkError =>
      { s with chatMessages :=
                 s.chatMessages ++ [{ role := "assistant", content := "Sorry, failed to get response." }],
               chatLoading := false }

/- ----------------------------------------------------------------
AIChat component, src/src/components/AIChat.tsx
---------------------------------------------------------------- -/

/-- View state of the AIChat component. -/
structure AIChatState where
  isOpen : Bool
  messages : List ChatMsg
  input : String
  loading : Bool
  showApiKeyInput : Bool
deriving DecidableEq

/-- Payload of a successful ai-analyze response: the analysis string read
at data.data.analysis. -/
structure AnalysisPayload where
  analysis : String
deriving DecidableEq

/-- Abort-timer period of analyzeMarket in AIChat, lines 62 to 90: the
fetch is issued with no AbortController and no signal, so no timer is
ever armed. -/
def analyzeMarketTimeoutMs : Option Nat := none

/-- Synchronous prologue of analyzeMarket, AIChat.tsx lines 62 to 66:
guard on a missing market or empty api key, then set loading and append
the user message. -/
def analyzeMarketStart (selectedMarket : Option Market) (apiKey : String)
    (s : AIChatState) : AIChatState :=
  match selectedMarket with
  | none => s
  | some m =>
      if apiKey.isEmpty then s
      else
        { s with loading := true,
                 messages := s.messages ++ [{ role := "user", content := "Analyze: " ++ m.title }] }

/-- State after the awaited part of analyzeMarket (AIChat.tsx lines 68 to
89) completes: the assistant analysis, a backend error text, or the
connection-failure text is appended, and loading is cleared last. -/
def analyzeMarketFinish (r : RequestEnd AnalysisPayload) (s : AIChatState) : AIChatState :=
  match r with
  | .completed (.success d) =>
      { s with messages := s.messages ++ [{ role := "assistant", content := d.analysis }],
               loading := false }
  | .completed (.failure msg) =>
      { s with messages :=
                 s.messages ++ [{ role := "assistant", content := "Error: " ++ jsOr msg "Failed to analyze" }],
               loading := false }
  | .networkError =>
      { s with messages :=
                 s.messages ++ [{ role := "assistant", content := "Error: Failed to connect to AI service" }],
               loading := false }

/- ----------------------------------------------------------------
AIInsights panel, src/src/components/AIInsights.tsx; the page variant in
src/unnamed/part_002 declares the identical fetchData routine and state.
---------------------------------------------------------------- -/

/-- SentimentData components record. -/
structure SentimentComponents where
  priceAction : Int
  volumeTrend : Int
  marketMomentum : Int
  newsImpact : Int
  crowdWisdom : Int
deriving DecidableEq

/-- SentimentData record. -/
structure SentimentData where
  overallScore : Int
  components : SentimentComponents
  interpretation : String
  tradingSignal : String
  confidence : Int
deriving DecidableEq

/-- Confidence interval of a prediction. -/
structure ConfidenceInterval where
  low : Int
  high : Int
deriving DecidableEq

/-- PredictionData record. -/
structure PredictionData where
  currentPrice : Int
  predictedPrice : Int
  confidenceInterval : ConfidenceInterval
  confidence : Int
  direction : String
  keyFactors : List String
  disclaimer : String
deriving DecidableEq

/-- One related news item. -/
structure NewsItem where
  headline : String
  impact : String
  sentiment : String
deriving DecidableEq

/-- NewsData record. -/
structure NewsData where
  relatedNews : List NewsItem
  overallImpact : String
  riskLevel : String
deriving DecidableEq

/-- One detected anomaly. -/
structure AnomalyItem where
  marketId : String
  marketTitle : String
  anomalyType : String
  severity : String
  description : String
  recommendation : String
deriving DecidableEq

/-- AnomalyData record. -/
structure AnomalyData where
  anomalies : List AnomalyItem
  marketHealth : String
  summary : String
deriving DecidableEq

/-- One portfolio recommendation. -/
structure PortfolioRec where
  marketId : String
  marketTitle : String
  action : String
  confidence : Int
  reasoning : String
  suggestedAllocation : Int
deriving DecidableEq

/-- PortfolioData record. -/
structure PortfolioData where
  recommendations : List PortfolioRec
  diversificationScore : Int
  overallStrategy : String
  expectedReturn : String
deriving DecidableEq

/-- One generated alert. -/
structure AlertItem where
  condition : String
  trigger : String
  priority : String
  reasoning : String
deriving DecidableEq

/-- One key date to watch. -/
structure KeyDate where
  date : String
  event : String
  importance : String
deriving DecidableEq

/-- AlertData record. -/
structure AlertData where
  alerts : List AlertItem
  keyDates : List KeyDate
  monitoringAdvice : String
deriving DecidableEq

/-- One key term definition. -/
structure KeyTerm where
  term : String
  definition : String
deriving DecidableEq

/-- ExplainData record. -/
structure ExplainData where
  simpleExplanation : String
  whatItMeans : String
  whyItMatters : String
  howToTrade : String
  keyTerms : List KeyTerm
  relatedConcepts : List String
deriving DecidableEq

/-- View state of the AIInsights panel: the loading and error hooks plus
the seven per-analysis data hooks and the three control settings. -/
structure InsightsState where
  activeTab : String
  loading : Bool
  error : Option String
  sentiment : Option SentimentData
  prediction : Option PredictionData
  news : Option NewsData
  anomalies : Option AnomalyData
  portfolio : Option PortfolioData
  alerts : Option AlertData
  explain : Option ExplainData
  predictionTimeframe : String
  riskTolerance : String
  expertiseLevel : String
deriving DecidableEq

/-- Tagged payload delivered to fetchData together with the setter the
calling load function passed: each load function pairs one endpoint with
the setter of the matching field. -/
inductive InsightData where
  | sentiment (d : SentimentData)
  | prediction (d : PredictionData)
  | news (d : NewsData)
  | anomalies (d : AnomalyData)
  | portfolio (d : PortfolioData)
  | alerts (d : AlertData)
  | explain (d : ExplainData)
deriving DecidableEq

/-- Effect of the setter passed to fetchData: store the payload in the
field matching its analysis kind. -/
def applyInsight (d : InsightData) (s : InsightsState) : InsightsState :=
  match d with
  | .sentiment d => { s with sentiment := some d }
  | .prediction d => { s with prediction := some d }
  | .news d => { s with news := some d }
  | .anomalies d => { s with anomalies := some d }
  | .portfolio d => { s with portfolio := some d }
  | .alerts d => { s with alerts := some d }
  | .explain d => { s with explain := some d }

/-- Synchronous prologue of fetchData, AIInsights.tsx lines 127 to 128. -/
def fetchDataStart (s : InsightsState) : InsightsState :=
  { s with loading := true, error := none }

/-- State after fetchData (AIInsights.tsx lines 126 to 146) completes: a
success envelope is stored through the setter, a failure envelope sets
the error from its message or a default, a rejection sets the
connection-failure error, and the finally branch clears loading last. -/
def fetchDataFinish (r : RequestEnd InsightData) (s : InsightsState) : InsightsState :=
  match r with
  | .completed (.success d) => { applyInsight d s with loading := false }
  | .completed (.failure msg) =>
      { s with error := some (jsOr msg "Failed to fetch data"), loading := false }
  | .networkError =>
      { s with error := some "Failed to connect to AI service", loading := false }

/- ----------------------------------------------------------------
Dashboard selection state machine: App.selectedMarket combined with the
per-panel selectedOutcome hooks of PriceChart and OrderBookView. Both
panel effects fire on a change of market.id; the markets rendered in the
outcome tabs are the first two outcomes of the selected market.
---------------------------------------------------------------- -/

/-- Combined selection state of the dashboard. -/
structure DashState where
  selectedMarket : Option Market
  chartSel : Option String
  bookSel : Option String
deriving DecidableEq

/-- Initial selection state: no market selected, panels unmounted with
null sub-selections. -/
def dashInit : DashState :=
  { selectedMarket := none, chartSel := none, bookSel := none }

/-- Selection events: choosing a market card, or clicking an outcome tab
in the chart or order-book panel. -/
inductive DashEvent where
  | selectMarket (m : Market)
  | chartTab (o : MarketOutcome)
  | bookTab (o : MarketOutcome)

/-- One step of the selection state machine. Selecting a market with a
new id remounts or re-fires both panel effects, resetting both
sub-selections; selecting one with the same id leaves them alone, since
the effects depend on market.id. An outcome tab click is available only
for the first two outcomes of the selected market and sets only that
panels sub-selection. -/
def dashStep (e : DashEvent) (s : DashState) : DashState :=
  match e with
  | .selectMarket m =>
      match s.selectedMarket with
      | some cur =>
          if cur.id = m.id then { s with selectedMarket := some m }
          else
            { selectedMarket := some m,
              chartSel := priceChartResetSelectedOutcome m,
              bookSel := orderBookResetSelectedOutcome m }
      | none =>
          { selectedMarket := some m,
            chartSel := priceChartResetSelectedOutcome m,
            bookSel := orderBookResetSelectedOutcome m }
  | .chartTab o =>
      match s.selectedMarket with
      | some m => if o ∈ m.outcomes.take 2 then { s with chartSel := some o.id } else s
      | none => s
  | .bookTab o =>
      match s.selectedMarket with
      | some m => if o ∈ m.outcomes.take 2 then { s with bookSel := some o.id } else s
      | none => s

/-- States reachable from the initial selection state. -/
inductive DashReachable : DashState → Prop where
  | init : DashReachable dashInit
  | step (e : DashEvent) {s : DashState} : DashReachable s → DashReachable (dashStep e s)

/-- First available outcome id of a market, in the words of the spec. -/
def firstOutcomeId (m : Market) : Option String :=
  m.outcomes.head?.map MarketOutcome.id

/- ----------------------------------------------------------------
Formalized claim statements used by refutations
---------------------------------------------------------------- -/

/-- Some market-data result field of the StockDashboard changed between
the two states. -/
def marketDataPopulated (s t : StockState) : Prop :=
  t.nifty ≠ s.nifty ∨ t.bankNifty ≠ s.bankNifty ∨ t.marketStatus ≠ s.marketStatus ∨
  t.gainers ≠ s.gainers ∨ t.losers ≠ s.losers

/-- Some analysis result field of the AIInsights panel changed between
the two states. -/
def insightsPopulated (s t : InsightsState) : Prop :=
  t.sentiment ≠ s.sentiment ∨ t.prediction ≠ s.prediction ∨ t.news ≠ s.news ∨
  t.anomalies ≠ s.anomalies ∨ t.portfolio ≠ s.portfolio ∨ t.alerts ≠ s.alerts ∨
  t.explain ≠ s.explain

/-- Formalization of claim C4: every AI analysis request path aborts a
request still in flight past 45 seconds and surfaces the dedicated
timeout message, distinct from the generic connection-failure message.
The two analysis request paths are analyzeStock in StockDashboard and
analyzeMarket in AIChat. -/
def C4Claim : Prop :=
  ∀ (duration : Nat), 45000 < duration →
    (∀ (r : RequestEnd Json) (s : StockState),
      resolveRequest analyzeStockTimeoutMs duration r = .aborted ∧
      (analyzeStockFinish duration r s).aiError = some analysisTimeoutMessage) ∧
    (∀ (r : RequestEnd AnalysisPayload),
      resolveRequest analyzeMarketTimeoutMs duration r = .aborted) ∧
    analysisTimeoutMessage ≠ analysisConnectionFailureMessage

/-- Formalization of claim C5 for the three cited routines: each sets its
loading flag and clears its prior error first, clears the loading flag
last, and on completion either populates a result value or sets an error
message, exactly one of the two. For sendChatMessage, which has no error
state, completion is read as appending exactly one message, the
assistant response or a failure notice. -/
def C5Claim : Prop :=
  (∀ (s : StockState) (r : MarketDataFetch),
    (loadMarketDataStart s).loading = true ∧
    (loadMarketDataStart s).error = none ∧
    (loadMarketDataFinish r (loadMarketDataStart s)).loading = false ∧
    (marketDataPopulated (loadMarketDataStart s) (loadMarketDataFinish r (loadMarketDataStart s)) ∨
      (loadMarketDataFinish r (loadMarketDataStart s)).error ≠ none) ∧
    ¬(marketDataPopulated (loadMarketDataStart s) (loadMarketDataFinish r (loadMarketDataStart s)) ∧
      (loadMarketDataFinish r (loadMarketDataStart s)).error ≠ none)) ∧
  (∀ (s : StockState) (r : RequestEnd ChatResponsePayload),
    (sendChatMessageFinish r s).chatLoading = false ∧
    (sendChatMessageFinish r s).chatMessages.length = s.chatMessages.length + 1) ∧
  (∀ (s : InsightsState) (r : RequestEnd InsightData),
    (fetchDataStart s).loading = true ∧
    (fetchDataStart s).error = none ∧
    (fetchDataFinish r (fetchDataStart s)).loading = false ∧
    (insightsPopulated (fetchDataStart s) (fetchDataFinish r (fetchDataStart s)) ∨
      (fetchDataFinish r (fetchDataStart s)).error ≠ none) ∧
    ¬(insightsPopulated (fetchDataStart s) (fetchDataFinish r (fetchDataStart s)) ∧
      (fetchDataFinish r (fetchDataStart s)).error ≠ none))

/-- Formalization of claim C6: in every reachable dashboard state the
chart panel and the order-book panel never hold two distinct selected
outcomes, and a market change resets the selection to the first
available outcome. -/
def C6Claim : Prop :=
  (∀ s, DashReachable s → ∀ a b, s.chartSel = some a → s.bookSel = some b → a = b) ∧
  (∀ (s : DashState) (m : Market),
    (∀ cur, s.selectedMarket = some cur → cur.id ≠ m.id) →
    (dashStep (.selectMarket m) s).chartSel = firstOutcomeId m ∧
    (dashStep (.selectMarket m) s).bookSel = firstOutcomeId m)

/-- Formalization of claim C7: submitting a blank or whitespace-only
search triggers the default listing fetch instead of a search call, for
the App search handler and for the StockDashboard search handler. -/
def C7Claim : Prop :=
  (∀ (ex : Exchange) (q : String), (jsTrim q).isEmpty = true →
    appHandleSearchCalls ex q = [.fetchMarketsCall ex 20]) ∧
  (∀ (q : String), (jsTrim q).isEmpty = true →
    stockHandleSearchCalls q = [.loadMarketDataCall])

/- ----------------------------------------------------------------
Concrete sample values for witnesses and counterexamples
---------------------------------------------------------------- -/

/-- Sample outcome with id o1. -/
def outcomeYes : MarketOutcome :=
  { id := "o1", label := "Yes", price := 1 }

/-- Sample outcome with id o2. -/
def outcomeNo : MarketOutcome :=
  { id := "o2", label := "No", price := 0 }

/-- Sample market with two outcomes. -/
def twoOutcomeMarket : Market :=
  { id := "m1", title := "Sample market", outcomes := [outcomeYes, outcomeNo],
    volume24h := 0, liquidity := 0, url := "https://example.org/m1" }

/-- Sample market with no outcomes. -/
def zeroOutcomeMarket : Market :=
  { id := "m0", title := "Empty market", outcomes := [],
    volume24h := 0, liquidity := 0, url := "https://example.org/m0" }

/-- Sample App state holding a selected market. -/
def appStateWithSelection : AppState :=
  { exchange := .polymarket, markets := [twoOutcomeMarket],
    selectedMarket := some twoOutcomeMarket, loading := false, error := none }

/-- Sample chart state. -/
def chartState0 : PriceChartState :=
  { candles := [], loading := true, error := some "old", selectedOutcome := some "o1" }

/-- Sample order-book state. -/
def bookState0 : OrderBookViewState :=
  { orderBook := none, loading := true, error := some "old", selectedOutcome := some "o1" }

/-- Sample proxy request. -/
def proxyReq0 : ProxyRequest :=
  { method := "GET", url := "/api/proxy/api/stocks/nifty50", body := Json.null }

/-- Sample upstream reply. -/
def upstreamReply0 : UpstreamReply :=
  { status := 200, body := Json.obj [("success", Json.bool true)] }

/-- Oracle for a network that always answers with the sample reply. -/
def netOk : String → FetchOptions → Except String UpstreamReply :=
  fun _ _ => .ok upstreamReply0

/-- Oracle for a network whose fetch always rejects. -/
def netFail : String → FetchOptions → Except String UpstreamReply :=
  fun _ _ => .error "connect ECONNREFUSED"

/-- Batch outcome in which every one of the five market-data envelopes
reports success false. -/
def allFailBatch : MarketDataFetch :=
  .completed (.failure none) (.failure none) (.failure none) (.failure none) (.failure none)

/-- Stock state with a pending chat input. -/
def chatState0 : StockState :=
  { stockInit with chatInput := "hello" }

/-- Dashboard state reached by selecting the sample market and then
clicking the second outcome tab of the chart panel only. -/
def divergedDashState : DashState :=
  dashStep (.chartTab outcomeNo) (dashStep (.selectMarket twoOutcomeMarket) dashInit)

/-- Initial AIInsights panel state: the useState initial values. -/
def insightsInit : InsightsState :=
  { activeTab := "sentiment", loading := false, error := none,
    sentiment := none, prediction := none, news := none, anomalies := none,
    portfolio := none, alerts := none, explain := none,
    predictionTimeframe := "24h", riskTolerance := "moderate", expertiseLevel := "beginner" }

/-- Sample sentiment payload. -/
def sampleSentiment : SentimentData :=
  { overallScore := 10,
    components := { priceAction := 1, volumeTrend := 2, marketMomentum := 3,
                    newsImpact := 4, crowdWisdom := 5 },
    interpretation := "mildly positive", tradingSignal := "hold", confidence := 1 }

/- ----------------------------------------------------------------
Theorems
---------------------------------------------------------------- -/

/-- Claim C1: for every change of the selected market, the chart panel
and the order-book panel each reset their outcome sub-selection; when the
new markets outcomes list is non-empty the sub-selection becomes the id
of the first outcome, and when it is empty the sub-selection becomes
null. -/
theorem marketChangeResetsOutcomeSelection
    (m : Market) (o : MarketOutcome) (rest : List MarketOutcome) :
    priceChartResetSelectedOutcome { m with outcomes := o :: rest } = some o.id ∧
    orderBookResetSelectedOutcome { m with outcomes := o :: rest } = some o.id ∧
    priceChartResetSelectedOutcome { m with outcomes := [] } = none ∧
    orderBookResetSelectedOutcome { m with outcomes := [] } = none :=
  ⟨rfl, rfl, rfl, rfl⟩

/-- Claim C2: when the network call of a load routine fails, the routine
leaves its result list empty and its error state a non-null string, and
after every completion, success or failure, the loading flag is false. -/
theorem failedFetchEmptiesResultsAndSetsError
    (s : AppState) (cs : PriceChartState) (bs : OrderBookViewState) (msg : String)
    (r : Except String (List Market)) (rc : Except String (List PriceCandle))
    (rb : Except String OrderBook) :
    ((loadMarkets (.error msg) s).markets = [] ∧
      (loadMarkets (.error msg) s).error = some msg) ∧
    ((loadCandles (.error msg) cs).candles = [] ∧
      (loadCandles (.error msg) cs).error = some msg) ∧
    ((loadOrderBook (.error msg) bs).orderBook = none ∧
      (loadOrderBook (.error msg) bs).error = some msg) ∧
    (loadMarkets r s).loading = false ∧
    (loadCandles rc cs).loading = false ∧
    (loadOrderBook rb bs).loading = false := by
  refine ⟨⟨rfl, rfl⟩, ⟨rfl, rfl⟩, ⟨rfl, rfl⟩, ?_, ?_, ?_⟩
  · cases r <;> rfl
  · cases rc <;> rfl
  · cases rb <;> rfl

/-- Claim C3: for every non-OPTIONS request, when the upstream
fetch-and-parse completes, each proxy handler relays the upstream status
code and the parsed JSON body unchanged. -/
theorem proxyForwardingPreservesStatusAndBody
    (req : ProxyRequest) (net : String → FetchOptions → Except String UpstreamReply)
    (reply : UpstreamReply) (hm : req.method ≠ "OPTIONS") :
    (net (targetUrl req.url) (corsFetchOptions req) = .ok reply →
      handlerCors req net = .response reply.status reply.body) ∧
    (net (targetUrl req.url) (basicFetchOptions req) = .ok reply →
      handlerBasic req net = .response reply.status reply.body) := by
  constructor
  · intro hn
    unfold handlerCors
    rw [if_neg hm, hn]
  · intro hn
    unfold handlerBasic
    rw [hn]

/-- Witness for claim C3 at a concrete GET request and a network oracle
answering status 200 with a success body. -/
theorem proxyForwardingWitness :
    handlerCors proxyReq0 netOk = .response 200 (Json.obj [("success", Json.bool true)]) ∧
    handlerBasic proxyReq0 netOk = .response 200 (Json.obj [("success", Json.bool true)]) := by
  have h := proxyForwardingPreservesStatusAndBody proxyReq0 netOk upstreamReply0 (by decide)
  exact ⟨h.1 rfl, h.2 rfl⟩

/-- Claim C8: whenever the forwarding of a request fails, each proxy
handler responds with status 500 and the failure envelope carrying the
error message. -/
theorem proxyErrorPathReturns500
    (req : ProxyRequest) (net : String → FetchOptions → Except String UpstreamReply)
    (e : String) (hm : req.method ≠ "OPTIONS") :
    (net (targetUrl req.url) (corsFetchOptions req) = .error e →
      handlerCors req net = .response 500 (errorEnvelope e)) ∧
    (net (targetUrl req.url) (basicFetchOptions req) = .error e →
      handlerBasic req net = .response 500 (errorEnvelope e)) := by
  constructor
  · intro hn
    unfold handlerCors
    rw [if_neg hm, hn]
  · intro hn
    unfold handlerBasic
    rw [hn]

/-- Witness for claim C8 at a concrete GET request and a network oracle
whose fetch always rejects. -/
theorem proxyErrorPathWitness :
    handlerCors proxyReq0 netFail = .response 500 (errorEnvelope "connect ECONNREFUSED") ∧
    handlerBasic proxyReq0 netFail = .response 500 (errorEnvelope "connect ECONNREFUSED") := by
  have h := proxyErrorPathReturns500 proxyReq0 netFail "connect ECONNREFUSED" (by decide)
  exact ⟨h.1 rfl, h.2 rfl⟩

/-- Claim C9: a market with an empty outcomes list yields a null outcome
selection in both panels, and with a null selection neither the candle
fetch nor the order-book fetch is issued. -/
theorem emptyOutcomesSuppressFetch (m : Market) (ex : Exchange) :
    priceChartResetSelectedOutcome { m with outcomes := [] } = none ∧
    orderBookResetSelectedOutcome { m with outcomes := [] } = none ∧
    chartCandleRequest ex (priceChartResetSelectedOutcome { m with outcomes := [] }) = none ∧
    orderBookFetchRequest ex (orderBookResetSelectedOutcome { m with outcomes := [] }) = none :=
  ⟨rfl, rfl, rfl, rfl⟩

/-- Claim C10: every successful completion of loadMarkets or of the
search branch of handleSearch clears the selected market, while a failed
completion leaves the selection unchanged and empties the markets list,
so a previously selected market is no longer an element of the displayed
list. -/
theorem selectionAfterLoadCompletion
    (s : AppState) (data : List Market) (msg : String) (m : Market) :
    (loadMarkets (.ok data) s).selectedMarket = none ∧
    (searchMarketsComplete (.ok data) s).selectedMarket = none ∧
    (loadMarkets (.error msg) s).selectedMarket = s.selectedMarket ∧
    (loadMarkets (.error msg) s).markets = [] ∧
    (searchMarketsComplete (.error msg) s).selectedMarket = s.selectedMarket ∧
    (searchMarketsComplete (.error msg) s).markets = [] ∧
    (s.selectedMarket = some m → m ∉ (loadMarkets (.error msg) s).markets) :=
  ⟨rfl, rfl, rfl, rfl, rfl, rfl, fun _ => by simp [loadMarkets]⟩

/-- Witness for claim C10: after a failed load the previously selected
sample market is not among the displayed markets, and a successful load
clears the selection. -/
theorem selectionAfterLoadWitness :
    twoOutcomeMarket ∉ (loadMarkets (.error "boom") appStateWithSelection).markets ∧
    (loadMarkets (Except.ok ([] : List Market)) appStateWithSelection).selectedMarket = none := by
  have h := selectionAfterLoadCompletion appStateWithSelection [] "boom" twoOutcomeMarket
  exact ⟨h.2.2.2.2.2.2 rfl, h.1⟩

/-- Claim C4 counterexample: the claim quantifies over every AI analysis
request, but the analyzeMarket path of AIChat never arms an abort timer,
so a request still in flight past 45 seconds is not aborted there. -/
theorem analysisTimeoutClaimFalse : ¬C4Claim := by
  intro h
  have habort := (h 45001 (by norm_num)).2.1 (RequestEnd.networkError)
  simp [resolveRequest, analyzeMarketTimeoutMs] at habort

/-- Claim C4 amended: the analyzeStock path of StockDashboard aborts any
request still in flight past its 45000 millisecond timer and surfaces the
dedicated timeout message, distinct from the generic connection-failure
message, while the analyzeMarket path of AIChat arms no timer at all. -/
theorem analyzeStockTimeoutAmended
    (d : Nat) (r : RequestEnd Json) (s : StockState) (hd : 45000 < d) :
    resolveRequest analyzeStockTimeoutMs d r = .aborted ∧
    (analyzeStockFinish d r s).aiError = some analysisTimeoutMessage ∧
    (analyzeStockFinish d r s).aiLoading = false ∧
    analysisTimeoutMessage ≠ analysisConnectionFailureMessage ∧
    analyzeMarketTimeoutMs = none := by
  have hres : resolveRequest analyzeStockTimeoutMs d r = .aborted := by
    simp [resolveRequest, analyzeStockTimeoutMs, hd]
  refine ⟨hres, ?_, ?_, by decide, rfl⟩
  · simp [analyzeStockFinish, hres]
  · simp [analyzeStockFinish, hres]

/-- Witness for the amended claim C4 at a request that rejects after
45001 milliseconds. -/
theorem analyzeStockTimeoutWitness :
    resolveRequest analyzeStockTimeoutMs 45001 (RequestEnd.networkError (α := Json)) = .aborted ∧
    (analyzeStockFinish 45001 RequestEnd.networkError stockInit).aiError
      = some analysisTimeoutMessage ∧
    (analyzeStockFinish 45001 RequestEnd.networkError stockInit).aiLoading = false ∧
    analysisTimeoutMessage ≠ analysisConnectionFailureMessage ∧
    analyzeMarketTimeoutMs = none :=
  analyzeStockTimeoutAmended 45001 RequestEnd.networkError stockInit (by norm_num)

/-- Claim C5 counterexample: when all five envelopes of loadMarketData
report success false, the routine completes populating no result field
and setting no error, so completion yields neither of the two promised
outcomes. -/
theorem fetchContractClaimFalse : ¬C5Claim := by
  intro h
  have hc := (h.1 stockInit allFailBatch).2.2.2.1
  rcases hc with hpop | herr
  · rcases hpop with h1 | h1 | h1 | h1 | h1 <;> exact h1 rfl
  · exact herr rfl

/-- Claim C5 amended: all three routines set their loading flag first and
clear it last; fetchData additionally clears the prior error and on
completion sets exactly one of result and error; loadMarketData sets an
error only when the awaited chain rejects and otherwise leaves the error
cleared even when envelopes report failure, populating only the fields of
successful envelopes; sendChatMessage appends the assistant response on
success and a failure notice on rejection, and appends nothing when the
envelope reports failure. -/
theorem fetchContractAmended
    (ss : StockState) (rm : MarketDataFetch)
    (n b : ApiResult IndexSnapshot) (st : ApiResult (List MarketStatus))
    (g l : ApiResult (List StockQuote))
    (sc : StockState) (d : ChatResponsePayload) (cmsg : Option String)
    (si : InsightsState) (ri : RequestEnd InsightData) (di : InsightData) (imsg : Option String)
    (hin : (jsTrim sc.chatInput).isEmpty = false) :
    (loadMarketDataStart ss).loading = true ∧
    (loadMarketDataStart ss).error = none ∧
    (loadMarketDataFinish rm (loadMarketDataStart ss)).loading = false ∧
    loadMarketDataFinish .networkError ss
      = { ss with error := some "Failed to load market data", loading := false } ∧
    (loadMarketDataFinish (.completed n b st g l) ss).error = ss.error ∧
    sendChatMessageStart sc
      = { sc with chatMessages := sc.chatMessages ++ [{ role := "user", content := sc.chatInput }],
                  chatInput := "", chatLoading := true } ∧
    sendChatMessageFinish (.completed (.success d)) sc
      = { sc with chatMessages := sc.chatMessages ++ [{ role := "assistant", content := d.response }],
                  chatLoading := false } ∧
    sendChatMessageFinish (.completed (.failure cmsg)) sc = { sc with chatLoading := false } ∧
    sendChatMessageFinish .networkError sc
      = { sc with chatMessages :=
                    sc.chatMessages ++ [{ role := "assistant", content := "Sorry, failed to get response." }],
                  chatLoading := false } ∧
    (fetchDataStart si).loading = true ∧
    (fetchDataStart si).error = none ∧
    (fetchDataFinish ri (fetchDataStart si)).loading = false ∧
    fetchDataFinish (.completed (.success di)) si = { applyInsight di si with loading := false } ∧
    (fetchDataFinish (.completed (.success di)) si).error = si.error ∧
    fetchDataFinish (.completed (.failure imsg)) si
      = { si with error := some (jsOr imsg "Failed to fetch data"), loading := false } ∧
    fetchDataFinish .networkError si
      = { si with error := some "Failed to connect to AI service", loading := false } := by
  refine ⟨rfl, rfl, ?_, rfl, ?_, ?_, rfl, rfl, rfl, rfl, rfl, ?_, rfl, ?_, rfl, rfl⟩
  · cases rm <;> rfl
  · cases n <;> cases b <;> cases st <;> cases g <;> cases l <;> rfl
  · simp [sendChatMessageStart, hin]
  · cases ri with
    | networkError => rfl
    | completed renv => cases renv <;> rfl
  · cases di <;> rfl

/-- Witness for the amended claim C5: the prologue of sendChatMessage at
a pending input, and the rejection branch of fetchData. -/
theorem fetchContractAmendedWitness :
    sendChatMessageStart chatState0
      = { chatState0 with chatMessages := [{ role := "user", content := "hello" }],
                          chatInput := "", chatLoading := true } ∧
    fetchDataFinish RequestEnd.networkError insightsInit
      = { insightsInit with error := some "Failed to connect to AI service", loading := false } := by
  have h := fetchContractAmended stockInit allFailBatch
    (.failure none) (.failure none) (.failure none) (.failure none) (.failure none)
    chatState0 ⟨"ok"⟩ none insightsInit RequestEnd.networkError
    (.sentiment sampleSentiment) none (by decide)
  obtain ⟨-, -, -, -, -, h6, -, -, -, -, -, -, -, -, -, h16⟩ := h
  exact ⟨h6, h16⟩

/-- Claim C6 counterexample: from the initial state, selecting the sample
market and then clicking the second outcome tab of the chart panel alone
reaches a state whose chart panel and order-book panel hold two distinct
selected outcomes. -/
theorem singleOutcomeSelectionClaimFalse : ¬C6Claim := by
  intro h
  have hreach : DashReachable divergedDashState :=
    DashReachable.step _ (DashReachable.step _ DashReachable.init)
  have heq := h.1 divergedDashState hreach "o2" "o1" (by decide) (by decide)
  exact absurd heq (by decide)

/-- Claim C6 amended: the dashboard holds at most one selected market,
each panel holds at most one outcome sub-selection, and selecting a
market with a new id resets both panels to the first available outcome,
leaving the two sub-selections equal at that point; the two panels are
afterwards free to diverge through their own tabs. -/
theorem marketChangeResetsBothPanels
    (s : DashState) (m : Market)
    (hnew : ∀ cur, s.selectedMarket = some cur → cur.id ≠ m.id) :
    (dashStep (.selectMarket m) s).selectedMarket = some m ∧
    (dashStep (.selectMarket m) s).chartSel = firstOutcomeId m ∧
    (dashStep (.selectMarket m) s).bookSel = firstOutcomeId m ∧
    (dashStep (.selectMarket m) s).chartSel = (dashStep (.selectMarket m) s).bookSel := by
  have hchart : priceChartResetSelectedOutcome m = firstOutcomeId m := by
    cases h : m.outcomes <;> simp [priceChartResetSelectedOutcome, firstOutcomeId, h]
  have hbook : orderBookResetSelectedOutcome m = firstOutcomeId m := by
    cases h : m.outcomes <;> simp [orderBookResetSelectedOutcome, firstOutcomeId, h]
  cases hsel : s.selectedMarket with
  | none => simp [dashStep, hsel, hchart, hbook]
  | some cur =>
      have hne : cur.id ≠ m.id := hnew cur hsel
      simp [dashStep, hsel, hne, hchart, hbook]

/-- Witness for the amended claim C6: selecting the sample market from
the initial state resets both panels to its first outcome id. -/
theorem marketChangeResetsBothPanelsWitness :
    (dashStep (.selectMarket twoOutcomeMarket) dashInit).chartSel = some "o1" ∧
    (dashStep (.selectMarket twoOutcomeMarket) dashInit).bookSel = some "o1" := by
  have h := marketChangeResetsBothPanels dashInit twoOutcomeMarket
    (by intro cur hc; simp [dashInit] at hc)
  exact ⟨h.2.1.trans (by decide), h.2.2.1.trans (by decide)⟩

/-- Claim C7 counterexample: submitting an empty query in the
StockDashboard search handler issues no request at all, in particular not
the default listing fetch. -/
theorem emptySearchClaimFalse : ¬C7Claim := by
  intro h
  have hc := h.2 "" (by decide)
  exact absurd hc (by decide)

/-- Claim C7 amended: a blank or whitespace-only query makes the App
search handler run the default listing fetch and issue no search call,
while the StockDashboard search handler returns without issuing any
request. -/
theorem emptySearchAmended (ex : Exchange) (q : String)
    (hq : (jsTrim q).isEmpty = true) :
    appHandleSearchCalls ex q = [.fetchMarketsCall ex 20] ∧
    stockHandleSearchCalls q = [] := by
  constructor <;> simp [appHandleSearchCalls, stockHandleSearchCalls, hq]

/-- Witness for the amended claim C7 at a whitespace-only query. -/
theorem emptySearchAmendedWitness :
    appHandleSearchCalls Exchange.polymarket "   "
      = [AppCall.fetchMarketsCall Exchange.polymarket 20] ∧
    stockHandleSearchCalls "   " = [] :=
  emptySearchAmended Exchange.polymarket "   " (by decide)

end MarketPred
